import Mathlib

/-!
Shallow embedding of the authentication and session-security subsystem of
`src/services/auth_service.py` (classes `PasswordPolicy`, `RateLimiter`,
`AuthService`), together with theorems settling the frozen claims about it.

Conventions of the embedding:
* time is an integer number of seconds (`Int`); `datetime.now()` becomes an
  explicit `now : Int` argument threaded through every operation;
* the SQLite tables become lists inside an explicit `AuthState` record, and
  each stateful method returns its result together with the updated state;
* the external primitives (bcrypt, PyJWT, pyotp) are modelled by abstract
  but executable functions that keep exactly the properties the service
  relies on: a hash matches precisely the password it was derived from, a
  signed token decodes precisely under the signing secret and before its
  `exp`, and a TOTP code matches precisely the secret's code at the current
  30-second step or one adjacent step (`valid_window=1`).
-/

/-- Structured payload carried by a JWT issued by `AuthService._generate_jwt`:
`\x7b'user_id', 'username', 'role', 'exp', 'iat'\x7d`. -/
structure JwtPayload where
  user_id : Nat
  username : String
  role : String
  iat : Int
  exp : Int
deriving Repr, DecidableEq

/-- Model of a bearer token string: either a token produced by `jwt.encode`
with some payload and signing secret, or an arbitrary malformed string. -/
inductive Token where
  | signed (payload : JwtPayload) (secret : String)
  | malformed (raw : String)
deriving Repr, DecidableEq

/-- Failure modes of `jwt.decode`: `jwt.ExpiredSignatureError` and
`jwt.InvalidTokenError` (the latter covers bad signatures and garbage). -/
inductive JwtError where
  | expired
  | invalid
deriving Repr, DecidableEq

/-- Model of `jwt.decode(token, secret, algorithms=['HS256'])`: a malformed
token or a wrong signing secret raises `InvalidTokenError`; a token whose
`exp` is not in the future raises `ExpiredSignatureError`; otherwise the
payload is returned. -/
def jwtDecode (secret : String) (token : Token) (now : Int) : Except JwtError JwtPayload :=
  match token with
  | .malformed _ => .error .invalid
  | .signed p s =>
      if s ≠ secret then .error .invalid
      else if p.exp ≤ now then .error .expired
      else .ok p

/-- Model of `bcrypt.hashpw`: an opaque, injective fingerprint of the
password. The service only relies on `checkpw(p, hashpw(q)) ↔ p = q`. -/
def bcryptHash (password : String) : String :=
  "bcrypt-" ++ password

/-- Model of `bcrypt.checkpw(password, hash)`. -/
def bcryptCheck (password hash : String) : Bool :=
  hash = bcryptHash password

/-- Model of the TOTP code for a secret at a given 30-second time step. -/
def totpCode (secret : String) (step : Int) : String :=
  secret ++ "-" ++ toString step

/-- Model of `pyotp.TOTP(secret).verify(code, valid_window=1)`: the code is
accepted iff it matches the current step or one step on either side. -/
def totpVerify (secret code : String) (now : Int) : Bool :=
  let step := now / 30
  code = totpCode secret (step - 1) ∨ code = totpCode secret step ∨
    code = totpCode secret (step + 1)

/-- Embeds `AuthService._verify_mfa_code`: `pyotp.TOTP(None)` raises, the exception
is caught and `False` returned, so a missing secret never verifies. -/
def verify_mfa_code (secret : Option String) (code : String) (now : Int) : Bool :=
  match secret with
  | none => false
  | some s => totpVerify s code now

/-- Row of the `users` table (dataclass `User`). -/
structure User where
  id : Nat
  username : String
  password_hash : String
  email : Option String
  role : String
  is_active : Bool
  mfa_enabled : Bool
  mfa_secret : Option String
  failed_login_attempts : Nat
  last_failed_login : Option Int
  last_login : Option Int
deriving Repr, DecidableEq

/-- Row of the `sessions` table (dataclass `Session`). -/
structure Session where
  id : Nat
  user_id : Nat
  token : Token
  ip_address : Option String
  user_agent : Option String
  expires_at : Int
  created_at : Int
  last_activity : Int
deriving Repr, DecidableEq

/-- Row of the `audit_log` table, as written by `AuthService._log_audit`. -/
structure AuditEntry where
  user_id : Option Nat
  username : Option String
  action : String
  resource : Option String
  ip_address : Option String
  user_agent : Option String
  status : String
  details : Option String
deriving Repr, DecidableEq

/-- Messages appended by `PasswordPolicy.validate`, with `MIN_LENGTH = 8`
and `SPECIAL_CHARS` interpolated into the f-strings. -/
def PasswordPolicy.MIN_LENGTH : Nat := 8

/-- Embeds `PasswordPolicy.SPECIAL_CHARS` from the source. -/
def PasswordPolicy.SPECIAL_CHARS : String := "!@#$%^&*()_+-=[]\x7b\x7d|;:,.<>?"

/-- Violation message for the minimum-length rule. -/
def PasswordPolicy.msgLength : String := "Password must be at least 8 characters"

/-- Violation message for the uppercase rule. -/
def PasswordPolicy.msgUpper : String := "Password must contain at least one uppercase letter"

/-- Violation message for the lowercase rule. -/
def PasswordPolicy.msgLower : String := "Password must contain at least one lowercase letter"

/-- Violation message for the digit rule. -/
def PasswordPolicy.msgDigit : String := "Password must contain at least one digit"

/-- Violation message for the special-character rule. -/
def PasswordPolicy.msgSpecial : String :=
  "Password must contain at least one special character: " ++ PasswordPolicy.SPECIAL_CHARS

/-- Embeds `PasswordPolicy.validate(password)`: appends one message per failing
rule, in source order, and returns `(len(errors) == 0, errors)`. Python's
Unicode `isupper`/`islower`/`isdigit` are modelled by their ASCII
restrictions `Char.isUpper`/`Char.isLower`/`Char.isDigit`. -/
def PasswordPolicy.validate (password : String) : Bool × List String :=
  let errors :=
    (if password.length < PasswordPolicy.MIN_LENGTH then [PasswordPolicy.msgLength] else []) ++
    (if password.any Char.isUpper then [] else [PasswordPolicy.msgUpper]) ++
    (if password.any Char.isLower then [] else [PasswordPolicy.msgLower]) ++
    (if password.any Char.isDigit then [] else [PasswordPolicy.msgDigit]) ++
    (if password.any (fun c => PasswordPolicy.SPECIAL_CHARS.contains c) then []
     else [PasswordPolicy.msgSpecial])
  (decide (errors.length = 0), errors)

/-- Per-identifier failure timestamps, `RateLimiter.attempts`. The Python
`defaultdict(list)` becomes an association list with `[]` as the default. -/
abbrev AttemptMap := List (String × List Int)

/-- Lookup in the attempts map; absent identifiers read as `[]`, matching
`defaultdict(list)`. -/
def AttemptMap.get (m : AttemptMap) (identifier : String) : List Int :=
  match List.find? (fun e => e.1 = identifier) m with
  | some e => e.2
  | none => []

/-- Assignment `self.attempts[identifier] = v`: replaces the first binding
of the key, or appends a fresh binding. -/
def AttemptMap.set (m : AttemptMap) (identifier : String) (v : List Int) : AttemptMap :=
  match m with
  | [] => [(identifier, v)]
  | e :: rest =>
      if e.1 = identifier then (identifier, v) :: rest
      else e :: AttemptMap.set rest identifier v

/-- State of `RateLimiter` (the lock is irrelevant to sequential
semantics). -/
structure RateLimiter where
  max_attempts : Nat
  window_seconds : Int
  attempts : AttemptMap
deriving Repr, DecidableEq

/-- Minimum of a timestamp list, `min(self.attempts[identifier])`. In the
source the blocked branch only evaluates it on a list of length at least
`max_attempts`, which is nonempty there (Python's `min([])` raises); the
`[]` case is an arbitrary total-function default. -/
def listMin : List Int → Int
  | [] => 0
  | t :: rest => rest.foldl min t

/-- Embeds `RateLimiter.is_rate_limited(identifier)`: prunes the identifier's
timestamps to those with `attempt > now - window_seconds`, writes the pruned
list back, and is blocked iff the remaining count reaches `max_attempts`,
with `seconds_until_reset = oldest + window_seconds - now`. -/
def RateLimiter.is_rate_limited (rl : RateLimiter) (now : Int) (identifier : String) :
    (Bool × Option Int) × RateLimiter :=
  let cutoff := now - rl.window_seconds
  let kept := (rl.attempts.get identifier).filter (fun t => decide (cutoff < t))
  let rl' : RateLimiter := { rl with attempts := rl.attempts.set identifier kept }
  if rl.max_attempts ≤ kept.length then
    ((true, some (listMin kept + rl.window_seconds - now)), rl')
  else
    ((false, none), rl')

/-- Embeds `RateLimiter.record_attempt(identifier)`: appends `now`. -/
def RateLimiter.record_attempt (rl : RateLimiter) (now : Int) (identifier : String) :
    RateLimiter :=
  { rl with attempts := rl.attempts.set identifier (rl.attempts.get identifier ++ [now]) }

/-- Embeds `RateLimiter.reset(identifier)`: clears the identifier's history. -/
def RateLimiter.reset (rl : RateLimiter) (identifier : String) : RateLimiter :=
  { rl with attempts := rl.attempts.set identifier [] }

/-- Embeds `AuthService.ROLES`, the ordinal role hierarchy, as the Python dict. -/
def ROLES : List (String × Nat) :=
  [("viewer", 1), ("user", 2), ("moderator", 3), ("admin", 4)]

/-- Embeds `self.ROLES.get(role, 0)`. -/
def rolesGet (role : String) : Nat :=
  match List.find? (fun e => e.1 = role) ROLES with
  | some e => e.2
  | none => 0

/-- Embeds `AuthService.check_permission(user, required_role)`: true iff the
ordinal of the user's role is at least the ordinal of the required role,
with absent dict entries defaulting to ordinal `0`. -/
def check_permission (user : User) (required_role : String) : Bool :=
  decide (rolesGet required_role ≤ rolesGet user.role)

/-- Whole-service state: the users, sessions and audit tables, the
in-process rate limiter, and the constructor arguments `jwt_secret` and
`jwt_expiry_hours`. New audit rows are consed at the front. -/
structure AuthState where
  users : List User
  sessions : List Session
  audit_log : List AuditEntry
  rate_limiter : RateLimiter
  next_session_id : Nat
  jwt_secret : String
  jwt_expiry_hours : Int
deriving Repr, DecidableEq

/-- Embeds `AuthService.get_user_by_username`: `SELECT * FROM users WHERE
username = ?` (first match; the column is UNIQUE). -/
def get_user_by_username (st : AuthState) (username : String) : Option User :=
  st.users.find? (fun u => u.username = username)

/-- Embeds `AuthService.get_user` / `get_user_by_id_with_hash`: `SELECT * FROM
users WHERE id = ?`. -/
def get_user (st : AuthState) (user_id : Nat) : Option User :=
  st.users.find? (fun u => u.id = user_id)

/-- Embeds `UPDATE users SET ... WHERE id = ?`, applied as a record rewrite. -/
def updateUser (st : AuthState) (user_id : Nat) (f : User → User) : AuthState :=
  { st with users := st.users.map (fun u => if u.id = user_id then f u else u) }

/-- Embeds `AuthService._log_audit`: inserts one audit row. -/
def logAudit (st : AuthState) (user_id : Option Nat) (username : Option String)
    (action : String) (resource ip_address user_agent : Option String)
    (status : String) : AuthState :=
  { st with audit_log :=
      { user_id := user_id, username := username, action := action,
        resource := resource, ip_address := ip_address, user_agent := user_agent,
        status := status, details := none } :: st.audit_log }

/-- Embeds `AuthService._generate_jwt(user_id, username, role)`. -/
def generate_jwt (st : AuthState) (now : Int) (user_id : Nat) (username role : String) :
    Token :=
  .signed { user_id := user_id, username := username, role := role,
            iat := now, exp := now + st.jwt_expiry_hours * 3600 } st.jwt_secret

/-- Embeds `AuthService._create_session`: inserts a session row expiring
`jwt_expiry_hours` after `now`. -/
def create_session (st : AuthState) (now : Int) (user_id : Nat) (token : Token)
    (ip_address user_agent : Option String) : AuthState :=
  { st with
      sessions := st.sessions ++
        [{ id := st.next_session_id, user_id := user_id, token := token,
           ip_address := ip_address, user_agent := user_agent,
           expires_at := now + st.jwt_expiry_hours * 3600,
           created_at := now, last_activity := now }],
      next_session_id := st.next_session_id + 1 }

/-- Embeds `AuthService._get_session_by_token`: `SELECT * FROM sessions WHERE
token = ? AND expires_at > datetime('now')`. -/
def get_session_by_token (st : AuthState) (now : Int) (token : Token) : Option Session :=
  st.sessions.find? (fun s => decide (s.token = token ∧ now < s.expires_at))

/-- Embeds `AuthService._update_session_activity`. -/
def update_session_activity (st : AuthState) (session_id : Nat) (now : Int) : AuthState :=
  { st with sessions :=
      st.sessions.map fun s =>
        if s.id = session_id then { s with last_activity := now } else s }

/-- Non-token payload of `authenticate`'s result dict: either the partial
`\x7b'requires_mfa': True, 'user_id': ...\x7d` dict, or the success profile
`\x7b'id', 'username', 'email', 'role', 'mfa_enabled'\x7d`. -/
inductive AuthData where
  | mfaRequired (user_id : Nat)
  | profile (id : Nat) (username : String) (email : Option String)
      (role : String) (mfa_enabled : Bool)
deriving Repr, DecidableEq

/-- Result quadruple of `AuthService.authenticate`:
`(success, token, user_data, errors)`. -/
structure AuthResult where
  success : Bool
  token : Option Token
  data : Option AuthData
  errors : List String
deriving Repr, DecidableEq

/-- The ISSUE step of `authenticate` (lines after every check passes):
reset the limiter for the supplied username, reset `failed_login_attempts`,
set `last_login`, generate the JWT, create the session, audit
`login_success`, and return the token with the user profile. -/
def issueSuccess (st : AuthState) (now : Int) (username : String) (user : User)
    (ip_address user_agent : Option String) : AuthResult × AuthState :=
  let st1 := { st with rate_limiter := st.rate_limiter.reset username }
  let st2 := updateUser st1 user.id
    (fun u => { u with failed_login_attempts := 0, last_failed_login := none })
  let st3 := updateUser st2 user.id (fun u => { u with last_login := some now })
  let token := generate_jwt st3 now user.id user.username user.role
  let st4 := create_session st3 now user.id token ip_address user_agent
  let st5 := logAudit st4 (some user.id) (some username) "login_success"
    none ip_address user_agent ("success")
  ({ success := true, token := some token,
     data := some (.profile user.id user.username user.email user.role user.mfa_enabled),
     errors := [] }, st5)

/-- Embeds `AuthService.authenticate(username, password, mfa_code, ip_address,
user_agent)`: the ordered RATE_CHECK, LOOKUP, ACTIVE_CHECK, PASSWORD_CHECK,
MFA_CHECK, ISSUE pipeline, short-circuiting at the first failure. -/
def authenticate (st : AuthState) (now : Int) (username password : String)
    (mfa_code : Option String) (ip_address user_agent : Option String) :
    AuthResult × AuthState :=
  let rlRes := st.rate_limiter.is_rate_limited now username
  let st1 := { st with rate_limiter := rlRes.2 }
  if rlRes.1.1 then
    let st2 := logAudit st1 none (some username) "login_failed"
      none ip_address user_agent ("rate_limited")
    ({ success := false, token := none, data := none,
       errors := ["Too many login attempts. Try again in " ++
         toString (rlRes.1.2.getD 0) ++ " seconds"] }, st2)
  else
    match get_user_by_username st1 username with
    | none =>
        let st2 := { st1 with rate_limiter := st1.rate_limiter.record_attempt now username }
        let st3 := logAudit st2 none (some username) "login_failed"
          none ip_address user_agent ("invalid_credentials")
        ({ success := false, token := none, data := none,
           errors := ["Invalid username or password"] }, st3)
    | some user =>
        if user.is_active = false then
          let st2 := logAudit st1 (some user.id) (some username) "login_failed"
            none ip_address user_agent ("account_disabled")
          ({ success := false, token := none, data := none,
             errors := ["Account is disabled"] }, st2)
        else if bcryptCheck password user.password_hash = false then
          let st2 := { st1 with rate_limiter := st1.rate_limiter.record_attempt now username }
          let st3 := updateUser st2 user.id
            (fun u => { u with failed_login_attempts := u.failed_login_attempts + 1,
                               last_failed_login := some now })
          let st4 := logAudit st3 (some user.id) (some username) "login_failed"
            none ip_address user_agent ("invalid_password")
          ({ success := false, token := none, data := none,
             errors := ["Invalid username or password"] }, st4)
        else if user.mfa_enabled then
          match mfa_code with
          | none =>
              ({ success := false, token := none,
                 data := some (.mfaRequired user.id),
                 errors := ["MFA code required"] }, st1)
          | some code =>
              if verify_mfa_code user.mfa_secret code now = false then
                let st2 := { st1 with
                  rate_limiter := st1.rate_limiter.record_attempt now username }
                let st3 := logAudit st2 (some user.id) (some username) "login_failed"
                  none ip_address user_agent ("invalid_mfa")
                ({ success := false, token := none, data := none,
                   errors := ["Invalid MFA code"] }, st3)
              else issueSuccess st1 now username user ip_address user_agent
        else issueSuccess st1 now username user ip_address user_agent

/-- Embeds `AuthService.verify_token(token)`: decode the JWT, require a live
session row for the exact token, touch the session, then require the
referenced user to exist and be active. -/
def verify_token (st : AuthState) (now : Int) (token : Token) :
    (Bool × Option User × List String) × AuthState :=
  match jwtDecode st.jwt_secret token now with
  | .error .expired => ((false, none, ["Token has expired"]), st)
  | .error .invalid => ((false, none, ["Invalid token"]), st)
  | .ok payload =>
      match get_session_by_token st now token with
      | none => ((false, none, ["Invalid or expired session"]), st)
      | some session =>
          let st1 := update_session_activity st session.id now
          match get_user st1 payload.user_id with
          | none => ((false, none, ["User not found or inactive"]), st1)
          | some user =>
              if user.is_active = false then
                ((false, none, ["User not found or inactive"]), st1)
              else
                ((true, some user, []), st1)

/-- Embeds `AuthService.logout(token)`: `DELETE FROM sessions WHERE token = ?`,
always reporting success. -/
def logout (st : AuthState) (token : Token) : Bool × AuthState :=
  (true, { st with sessions := st.sessions.filter (fun s => !decide (s.token = token)) })

/-! Concrete scenario data used to exercise the operations. -/

/-- A regular active user with password `Secur3!pass` and two prior failed
logins on record. -/
def userBob : User :=
  { id := 1, username := "bob", password_hash := bcryptHash ("Secur3!pass"),
    email := none, role := "user", is_active := true, mfa_enabled := false,
    mfa_secret := none, failed_login_attempts := 2,
    last_failed_login := some (-50), last_login := none }

/-- An active user with MFA enabled and a confirmed TOTP secret. -/
def userMia : User :=
  { id := 2, username := "mia", password_hash := bcryptHash ("Secur3!pass"),
    email := none, role := "moderator", is_active := true, mfa_enabled := true,
    mfa_secret := some ("MIASECRET"), failed_login_attempts := 0,
    last_failed_login := none, last_login := none }

/-- A deactivated user. -/
def userIna : User :=
  { id := 3, username := "ina", password_hash := bcryptHash ("Secur3!pass"),
    email := none, role := "user", is_active := false, mfa_enabled := false,
    mfa_secret := none, failed_login_attempts := 0,
    last_failed_login := none, last_login := none }

/-- The limiter as constructed by `AuthService.__init__`: 5 attempts per
900-second window, empty history. -/
def freshLimiter : RateLimiter :=
  { max_attempts := 5, window_seconds := 900, attempts := [] }

/-- Base service state with the three users and no sessions. -/
def stBase : AuthState :=
  { users := [userBob, userMia, userIna], sessions := [], audit_log := [],
    rate_limiter := freshLimiter, next_session_id := 1,
    jwt_secret := "topsecret", jwt_expiry_hours := 24 }

/-- A limiter holding five recent failures for `bob`. -/
def rlFive : RateLimiter :=
  { max_attempts := 5, window_seconds := 900, attempts := [("bob", [0, 1, 2, 3, 4])] }

/-- Base state whose limiter already blocks `bob`. -/
def stBlocked : AuthState :=
  { stBase with rate_limiter := rlFive }

/-- A signature-valid, unexpired token for the deactivated user `ina`. -/
def tokIna : Token :=
  .signed { user_id := 3, username := "ina", role := "user", iat := 0,
            exp := 86400 } "topsecret"

/-- A signature-valid, unexpired token for `bob`. -/
def tokBob : Token :=
  .signed { user_id := 1, username := "bob", role := "user", iat := 0,
            exp := 86400 } "topsecret"

/-- Base state with live sessions backing `tokBob` and `tokIna`. -/
def stSess : AuthState :=
  { stBase with
      sessions :=
        [{ id := 1, user_id := 1, token := tokBob, ip_address := none,
           user_agent := none, expires_at := 86400, created_at := 0,
           last_activity := 0 },
         { id := 2, user_id := 3, token := tokIna, ip_address := none,
           user_agent := none, expires_at := 86400, created_at := 0,
           last_activity := 0 }],
      next_session_id := 3 }

/-! Helper lemmas about the embedded operations. -/

theorem AttemptMap.get_set (m : AttemptMap) (k : String) (v : List Int) :
    (m.set k v).get k = v := by
  induction m with
  | nil => simp [AttemptMap.set, AttemptMap.get, List.find?]
  | cons e rest ih =>
      by_cases h : e.1 = k
      · simp [AttemptMap.set, h, AttemptMap.get, List.find?]
      · simpa [AttemptMap.set, h, AttemptMap.get, List.find?_cons, h] using ih

/-- The state returned by `is_rate_limited` always carries the pruned map,
whether or not the identifier is blocked. -/
theorem RateLimiter.is_rate_limited_state (rl : RateLimiter) (now : Int) (id : String) :
    (rl.is_rate_limited now id).2 =
      { rl with attempts :=
          (rl.attempts.set id
            ((rl.attempts.get id).filter (fun t => decide (now - rl.window_seconds < t)))) } := by
  unfold RateLimiter.is_rate_limited
  dsimp only
  split <;> rfl

theorem RateLimiter.is_rate_limited_attempts (rl : RateLimiter) (now : Int) (id : String) :
    ((rl.is_rate_limited now id).2).attempts.get id =
      (rl.attempts.get id).filter (fun t => decide (now - rl.window_seconds < t)) := by
  rw [RateLimiter.is_rate_limited_state]
  exact AttemptMap.get_set _ _ _

theorem RateLimiter.record_attempt_get (rl : RateLimiter) (now : Int) (id : String) :
    ((rl.record_attempt now id).attempts.get id) = rl.attempts.get id ++ [now] := by
  unfold RateLimiter.record_attempt
  exact AttemptMap.get_set _ _ _

theorem RateLimiter.reset_get (rl : RateLimiter) (id : String) :
    ((rl.reset id).attempts.get id) = [] := by
  unfold RateLimiter.reset
  exact AttemptMap.get_set _ _ _

/-- Claim C4: `RateLimiter.is_rate_limited(identifier)` first prunes every
recorded timestamp at or before `now - window_seconds` for that identifier
(so in particular every strictly older one), then returns blocked iff the
remaining count is at least `max_attempts`, with retry value
`oldest_remaining + window_seconds - now` exactly when blocked — sliding
window semantics with no explicit reset needed. -/
theorem c4_rate_limiter_sliding_window (rl : RateLimiter) (now : Int) (id : String)
    (h : 1 ≤ rl.max_attempts) :
    ((rl.is_rate_limited now id).2.attempts.get id =
        (rl.attempts.get id).filter (fun t => decide (now - rl.window_seconds < t))) ∧
    ((rl.is_rate_limited now id).1.1 = true ↔
        rl.max_attempts ≤ ((rl.attempts.get id).filter
          (fun t => decide (now - rl.window_seconds < t))).length) ∧
    ((rl.is_rate_limited now id).1.1 = true →
        (rl.is_rate_limited now id).1.2 =
          some (listMin ((rl.attempts.get id).filter
            (fun t => decide (now - rl.window_seconds < t))) + rl.window_seconds - now)) ∧
    ((rl.is_rate_limited now id).1.1 = false → (rl.is_rate_limited now id).1.2 = none) := by
  refine ⟨RateLimiter.is_rate_limited_attempts rl now id, ?_, ?_, ?_⟩ <;>
    · by_cases hc : rl.max_attempts ≤ ((rl.attempts.get id).filter
          (fun t => decide (now - rl.window_seconds < t))).length <;>
        simp [RateLimiter.is_rate_limited, hc]

/-- Witness for C4: with five failures at seconds 0..4 in a 900-second
window (limit 5), `bob` is blocked at second 10 with retry 890, and is no
longer blocked at second 901, once the oldest failure left the window. -/
theorem c4_rate_limiter_sliding_window_witness :
    (rlFive.is_rate_limited 10 ("bob")).1.1 = true ∧
    (rlFive.is_rate_limited 10 ("bob")).1.2 = some 890 ∧
    (rlFive.is_rate_limited 901 ("bob")).1.1 = false := by
  have h1 := c4_rate_limiter_sliding_window rlFive 10 ("bob") (by decide)
  have h2 := c4_rate_limiter_sliding_window rlFive 901 ("bob") (by decide)
  have hb : (rlFive.is_rate_limited 10 ("bob")).1.1 = true := h1.2.1.mpr (by decide)
  refine ⟨hb, ?_, ?_⟩
  · rw [h1.2.2.1 hb]
    decide
  · cases hnb : (rlFive.is_rate_limited 901 ("bob")).1.1 with
    | false => rfl
    | true => exact absurd (h2.2.1.mp hnb) (by decide)

/-- Claim C8: `PasswordPolicy.validate(p)` returns ok iff all five rules
hold (length at least 8, an uppercase letter, a lowercase letter, a digit,
a character from the fixed special set), every unmet rule contributes its
own entry to the violations list with no fail-fast, and ok is true exactly
when the violations list is empty. -/
theorem c8_password_policy_all_rules (p : String) :
    ((PasswordPolicy.validate p).1 = true ↔
      (PasswordPolicy.MIN_LENGTH ≤ p.length ∧ p.any Char.isUpper = true ∧
       p.any Char.isLower = true ∧ p.any Char.isDigit = true ∧
       p.any (fun c => PasswordPolicy.SPECIAL_CHARS.contains c) = true)) ∧
    ((PasswordPolicy.validate p).1 = true ↔ (PasswordPolicy.validate p).2 = []) ∧
    (p.length < PasswordPolicy.MIN_LENGTH ↔
      PasswordPolicy.msgLength ∈ (PasswordPolicy.validate p).2) ∧
    (¬ p.any Char.isUpper = true ↔ PasswordPolicy.msgUpper ∈ (PasswordPolicy.validate p).2) ∧
    (¬ p.any Char.isLower = true ↔ PasswordPolicy.msgLower ∈ (PasswordPolicy.validate p).2) ∧
    (¬ p.any Char.isDigit = true ↔ PasswordPolicy.msgDigit ∈ (PasswordPolicy.validate p).2) ∧
    (¬ p.any (fun c => PasswordPolicy.SPECIAL_CHARS.contains c) = true ↔
      PasswordPolicy.msgSpecial ∈ (PasswordPolicy.validate p).2) := by
  have hne1 : PasswordPolicy.msgLength ≠ PasswordPolicy.msgUpper := by decide
  have hne2 : PasswordPolicy.msgLength ≠ PasswordPolicy.msgLower := by decide
  have hne3 : PasswordPolicy.msgLength ≠ PasswordPolicy.msgDigit := by decide
  have hne4 : PasswordPolicy.msgLength ≠ PasswordPolicy.msgSpecial := by decide
  have hne5 : PasswordPolicy.msgUpper ≠ PasswordPolicy.msgLength := by decide
  have hne6 : PasswordPolicy.msgUpper ≠ PasswordPolicy.msgLower := by decide
  have hne7 : PasswordPolicy.msgUpper ≠ PasswordPolicy.msgDigit := by decide
  have hne8 : PasswordPolicy.msgUpper ≠ PasswordPolicy.msgSpecial := by decide
  have hne9 : PasswordPolicy.msgLower ≠ PasswordPolicy.msgLength := by decide
  have hne10 : PasswordPolicy.msgLower ≠ PasswordPolicy.msgUpper := by decide
  have hne11 : PasswordPolicy.msgLower ≠ PasswordPolicy.msgDigit := by decide
  have hne12 : PasswordPolicy.msgLower ≠ PasswordPolicy.msgSpecial := by decide
  have hne13 : PasswordPolicy.msgDigit ≠ PasswordPolicy.msgLength := by decide
  have hne14 : PasswordPolicy.msgDigit ≠ PasswordPolicy.msgUpper := by decide
  have hne15 : PasswordPolicy.msgDigit ≠ PasswordPolicy.msgLower := by decide
  have hne16 : PasswordPolicy.msgDigit ≠ PasswordPolicy.msgSpecial := by decide
  have hne17 : PasswordPolicy.msgSpecial ≠ PasswordPolicy.msgLength := by decide
  have hne18 : PasswordPolicy.msgSpecial ≠ PasswordPolicy.msgUpper := by decide
  have hne19 : PasswordPolicy.msgSpecial ≠ PasswordPolicy.msgLower := by decide
  have hne20 : PasswordPolicy.msgSpecial ≠ PasswordPolicy.msgDigit := by decide
  by_cases h1 : p.length < PasswordPolicy.MIN_LENGTH <;>
  by_cases h2 : p.any Char.isUpper = true <;>
  by_cases h3 : p.any Char.isLower = true <;>
  by_cases h4 : p.any Char.isDigit = true <;>
  by_cases h5 : p.any (fun c => PasswordPolicy.SPECIAL_CHARS.contains c) = true <;>
  simp_all [PasswordPolicy.validate, PasswordPolicy.MIN_LENGTH]

/-- Every role ordinal produced by `self.ROLES.get(role, 0)` is at most 4,
the ordinal of `admin`. -/
theorem rolesGet_le_four (r : String) : rolesGet r ≤ 4 := by
  unfold rolesGet
  cases h : List.find? (fun e => e.1 = r) ROLES with
  | none => simp
  | some e =>
      have hm := List.mem_of_find?_eq_some h
      simp only [ROLES, List.mem_cons, List.not_mem_nil, or_false] at hm
      rcases hm with h' | h' | h' | h' <;> simp [h']

/-- Counterexample to claim C9: a role outside the mapping gets ordinal 0
but is NOT always denied — when the required role is itself unknown (also
ordinal 0), `check_permission` returns true, since `0 >= 0`. -/
theorem c9_unknown_role_granted_counterexample :
    rolesGet ("ghost") = 0 ∧
    check_permission { userBob with role := "ghost" } "ghost" = true := by decide

/-- Claim C9 as amended: `check_permission` returns true iff
`ordinal(userRole) >= ordinal(requiredRole)` under
`\x7bviewer:1, user:2, moderator:3, admin:4\x7d` with unknown roles at
ordinal 0; an unknown user role is denied whenever the required role is one
of the four known roles (but granted when the required role is itself
unknown); `admin` passes every required role, and `viewer` passes, among the
four known required roles, only `viewer`. -/
theorem c9_role_hierarchy_amended (u : User) (rr : String) :
    (check_permission u rr = true ↔ rolesGet rr ≤ rolesGet u.role) ∧
    (rolesGet u.role = 0 → 1 ≤ rolesGet rr → check_permission u rr = false) ∧
    (u.role = "admin" → check_permission u rr = true) ∧
    (u.role = "viewer" → rr ∈ ["viewer", "user", "moderator", "admin"] →
      (check_permission u rr = true ↔ rr = "viewer")) := by
  refine ⟨by simp [check_permission], ?_, ?_, ?_⟩
  · intro h0 h1
    simp only [check_permission, h0]
    exact decide_eq_false (by omega)
  · intro ha
    simp only [check_permission, ha]
    have h4 : rolesGet ("admin") = 4 := by decide
    rw [h4]
    exact decide_eq_true (rolesGet_le_four rr)
  · intro hv hm
    simp only [List.mem_cons, List.not_mem_nil, or_false] at hm
    rcases hm with rfl | rfl | rfl | rfl <;> simp [check_permission, hv] <;> decide

/-- Witness for the amended C9: a moderator passes `viewer`, and an unknown
role is denied against the known required role `user`. -/
theorem c9_role_hierarchy_amended_witness :
    check_permission userMia ("viewer") = true ∧
    check_permission { userBob with role := "ghost" } "user" = false := by
  have h1 := c9_role_hierarchy_amended userMia ("viewer")
  have h2 := c9_role_hierarchy_amended { userBob with role := "ghost" } "user"
  exact ⟨h1.1.mpr (by decide), h2.2.1 (by decide) (by decide)⟩

/-- After `logout(token)` no session row with that token remains, so the
session lookup in `verify_token` fails. -/
theorem get_session_by_token_logout (st : AuthState) (now : Int) (token : Token) :
    get_session_by_token (logout st token).2 now token = none := by
  unfold get_session_by_token logout
  rw [List.find?_eq_none]
  intro s hs
  have hmem := (List.mem_filter.mp hs).2
  simp only [Bool.not_eq_true', decide_eq_false_iff_not] at hmem
  simp only [decide_eq_true_eq, not_and]
  intro h1 _
  exact absurd h1 hmem

/-- Touching a session's `last_activity` leaves the users table intact. -/
theorem get_user_touch (st : AuthState) (sid : Nat) (now : Int) (uid : Nat) :
    get_user (update_session_activity st sid now) uid = get_user st uid := rfl

/-- Claim C1: `verify_token` succeeds only when the JWT decode succeeds AND
a session row with that exact token and a strictly future `expires_at`
exists; consequently `logout(token)` followed by `verify_token(token)`
fails for every token and state, even though the JWT itself may still be
signature-valid and unexpired. -/
theorem c1_verify_token_requires_live_session (st : AuthState) (now : Int) (token : Token) :
    ((verify_token st now token).1.1 = true →
      (∃ payload, jwtDecode st.jwt_secret token now = .ok payload) ∧
      ∃ s ∈ st.sessions, s.token = token ∧ now < s.expires_at) ∧
    (verify_token (logout st token).2 now token).1.1 = false := by
  constructor
  · intro hv
    unfold verify_token at hv
    cases hjd : jwtDecode st.jwt_secret token now with
    | error e =>
        rw [hjd] at hv
        cases e <;> simp at hv
    | ok payload =>
        rw [hjd] at hv
        cases hs : get_session_by_token st now token with
        | none => rw [hs] at hv; simp at hv
        | some s =>
            refine ⟨⟨payload, rfl⟩, s, ?_, ?_⟩
            · exact List.mem_of_find?_eq_some hs
            · have hp := List.find?_some hs
              simpa using hp
  · unfold verify_token
    cases hjd : jwtDecode (logout st token).2.jwt_secret token now with
    | error e => cases e <;> simp
    | ok payload => simp [get_session_by_token_logout]

/-- Witness for C1: at second 10 the stored token for `bob` verifies, so
the implication applies and yields the signed payload and the live session;
and after logging that token out, verification fails. -/
theorem c1_verify_token_requires_live_session_witness :
    ((∃ payload, jwtDecode stSess.jwt_secret tokBob 10 = .ok payload) ∧
      ∃ s ∈ stSess.sessions, s.token = tokBob ∧ (10 : Int) < s.expires_at) ∧
    (verify_token (logout stSess tokBob).2 10 tokBob).1.1 = false := by
  have h := c1_verify_token_requires_live_session stSess 10 tokBob
  exact ⟨h.1 (by decide), h.2⟩

/-- Claim C10: `verify_token` additionally requires the token's user to
still exist and be active — a verified call exhibits an active user row for
the payload's `user_id`, and whenever every user row under that id is
inactive (in particular when the row was deleted), verification fails even
if the JWT decodes and a live session exists. -/
theorem c10_verify_token_requires_active_user (st : AuthState) (now : Int) (token : Token) :
    ((verify_token st now token).1.1 = true →
      ∃ payload user, jwtDecode st.jwt_secret token now = .ok payload ∧
        get_user st payload.user_id = some user ∧ user.is_active = true) ∧
    (∀ payload, jwtDecode st.jwt_secret token now = .ok payload →
      (∀ u, get_user st payload.user_id = some u → u.is_active = false) →
      (verify_token st now token).1.1 = false) := by
  constructor
  · intro hv
    unfold verify_token at hv
    cases hjd : jwtDecode st.jwt_secret token now with
    | error e => rw [hjd] at hv; cases e <;> simp at hv
    | ok payload =>
        rw [hjd] at hv
        dsimp only at hv
        cases hs : get_session_by_token st now token with
        | none => rw [hs] at hv; simp at hv
        | some s =>
            rw [hs] at hv
            dsimp only at hv
            cases hu : get_user (update_session_activity st s.id now) payload.user_id with
            | none => rw [hu] at hv; simp at hv
            | some user =>
                rw [hu] at hv
                dsimp only at hv
                by_cases ha : user.is_active = false
                · rw [if_pos ha] at hv; simp at hv
                · refine ⟨payload, user, rfl, ?_, ?_⟩
                  · rw [← get_user_touch st s.id now]; exact hu
                  · cases hb : user.is_active with
                    | true => rfl
                    | false => exact absurd hb ha
  · intro payload hjd hall
    unfold verify_token
    rw [hjd]
    dsimp only
    cases hs : get_session_by_token st now token with
    | none => rfl
    | some s =>
        dsimp only
        cases hu : get_user (update_session_activity st s.id now) payload.user_id with
        | none => rfl
        | some user =>
            have hin : user.is_active = false := by
              apply hall
              rw [← get_user_touch st s.id now]
              exact hu
            simp [hin]

/-- Witness for C10: `ina` has a signature-valid unexpired token and a live
session, but her account is deactivated, so `verify_token` fails. -/
theorem c10_verify_token_requires_active_user_witness :
    (verify_token stSess 10 tokIna).1.1 = false := by
  have h := c10_verify_token_requires_active_user stSess 10 tokIna
  refine h.2 ⟨3, "ina", "user", 0, 86400⟩ rfl ?_
  intro u hu
  have h3 : get_user stSess (JwtPayload.user_id ⟨3, "ina", "user", 0, 86400⟩) =
      some userIna := by decide
  rw [h3] at hu
  injection hu with h4
  rw [← h4]
  rfl

/-- Counterexample to claim C3: not every failing `verify_token` call
returns the generic 'Invalid or expired session' message — a malformed
token fails with the distinct message 'Invalid token' (and an expired JWT
with 'Token has expired'), so the failure causes are externally
distinguishable. -/
theorem c3_nonuniform_error_counterexample :
    (verify_token stBase 0 (Token.malformed ("garbage"))).1.1 = false ∧
    (verify_token stBase 0 (Token.malformed ("garbage"))).1.2.2 ≠
      ["Invalid or expired session"] := by decide

/-- Claim C3 as amended: a failing `verify_token` returns one of four
distinct messages, mapped per cause: a bad signature or malformed token
returns 'Invalid token'; JWT expiry returns 'Token has expired'; a
missing or deactivated user row returns 'User not found or inactive'; and
'Invalid or expired session' is returned exactly when the JWT decodes
successfully but no live session row matches the token (revoked, missing,
or expired session). The failure causes are externally distinguishable. -/
theorem c3_verify_token_errors_amended (st : AuthState) (now : Int) (token : Token) :
    ((verify_token st now token).1.1 = false →
      (verify_token st now token).1.2.2 = ["Invalid token"] ∨
      (verify_token st now token).1.2.2 = ["Token has expired"] ∨
      (verify_token st now token).1.2.2 = ["Invalid or expired session"] ∨
      (verify_token st now token).1.2.2 = ["User not found or inactive"]) ∧
    (jwtDecode st.jwt_secret token now = .error .invalid →
      (verify_token st now token).1.1 = false ∧
      (verify_token st now token).1.2.2 = ["Invalid token"]) ∧
    (jwtDecode st.jwt_secret token now = .error .expired →
      (verify_token st now token).1.1 = false ∧
      (verify_token st now token).1.2.2 = ["Token has expired"]) ∧
    ((verify_token st now token).1.2.2 = ["Invalid or expired session"] ↔
      (∃ payload, jwtDecode st.jwt_secret token now = .ok payload) ∧
      get_session_by_token st now token = none) ∧
    (∀ payload s, jwtDecode st.jwt_secret token now = .ok payload →
      get_session_by_token st now token = some s →
      (∀ u, get_user st payload.user_id = some u → u.is_active = false) →
      (verify_token st now token).1.1 = false ∧
      (verify_token st now token).1.2.2 = ["User not found or inactive"]) := by
  unfold verify_token
  cases hjd : jwtDecode st.jwt_secret token now with
  | error e =>
      cases e
      · -- expired
        dsimp only
        refine ⟨fun _ => Or.inr (Or.inl (by trivial)), ?_, ?_, ?_, ?_⟩
        · intro h; simp at h
        · intro _; exact ⟨by trivial, by trivial⟩
        · constructor
          · intro h; exact absurd h (by decide)
          · rintro ⟨⟨p, hp⟩, -⟩; simp at hp
        · intro payload s hp; simp at hp
      · -- invalid
        dsimp only
        refine ⟨fun _ => Or.inl (by trivial), ?_, ?_, ?_, ?_⟩
        · intro _; exact ⟨by trivial, by trivial⟩
        · intro h; simp at h
        · constructor
          · intro h; exact absurd h (by decide)
          · rintro ⟨⟨p, hp⟩, -⟩; simp at hp
        · intro payload s hp; simp at hp
  | ok payload =>
      dsimp only
      cases hs : get_session_by_token st now token with
      | none =>
          dsimp only
          refine ⟨fun _ => Or.inr (Or.inr (Or.inl (by trivial))), ?_, ?_, ?_, ?_⟩
          · intro h; simp at h
          · intro h; simp at h
          · simp
          · intro payload' s' hp hs'
            exact absurd hs' (by simp)
      | some s =>
          dsimp only
          cases hu : get_user (update_session_activity st s.id now) payload.user_id with
          | none =>
              dsimp only
              refine ⟨fun _ => Or.inr (Or.inr (Or.inr (by trivial))), ?_, ?_, ?_, ?_⟩
              · intro h; simp at h
              · intro h; simp at h
              · constructor
                · intro h; exact absurd h (by decide)
                · rintro ⟨-, hn⟩; exact Option.noConfusion hn
              · intro payload' s' hp hs' hall
                exact ⟨by trivial, by trivial⟩
          | some user =>
              dsimp only
              by_cases ha : user.is_active = false
              · simp only [if_pos ha]
                refine ⟨fun _ => Or.inr (Or.inr (Or.inr (by trivial))), ?_, ?_, ?_, ?_⟩
                · intro h; simp at h
                · intro h; simp at h
                · constructor
                  · intro h; exact absurd h (by decide)
                  · rintro ⟨-, hn⟩; exact Option.noConfusion hn
                · intro payload' s' hp hs' hall
                  exact ⟨by trivial, by trivial⟩
              · simp only [if_neg ha]
                refine ⟨fun h => absurd h (by decide), ?_, ?_, ?_, ?_⟩
                · intro h; simp at h
                · intro h; simp at h
                · constructor
                  · intro h; exact absurd h (by decide)
                  · rintro ⟨-, hn⟩; exact Option.noConfusion hn
                · intro payload' s' hp hs' hall
                  injection hp with hpe
                  have hu' : get_user st payload'.user_id = some user := by
                    rw [← hpe, ← get_user_touch st s.id now]
                    exact hu
                  exact absurd (hall user hu') ha

/-- Witness for the amended C3: a malformed token decodes to
`InvalidTokenError`, and the per-cause mapping yields the failure with the
distinct message 'Invalid token'. -/
theorem c3_verify_token_errors_amended_witness :
    (verify_token stBase 0 (Token.malformed ("g2"))).1.1 = false ∧
    (verify_token stBase 0 (Token.malformed ("g2"))).1.2.2 = ["Invalid token"] :=
  (c3_verify_token_errors_amended stBase 0 (Token.malformed ("g2"))).2.1 rfl

/-- Claim C5: whenever `RateLimiter.is_rate_limited(username)` is true at
the start of the call, `authenticate` terminates with a rate-limited
failure carrying the retry-after value in its message, audits
`rate_limited`, and never returns a token — whatever password and MFA code
were supplied. -/
theorem c5_rate_limited_never_issues_token (st : AuthState) (now : Int)
    (username password : String) (mfa_code : Option String) (ip ua : Option String)
    (h : (st.rate_limiter.is_rate_limited now username).1.1 = true) :
    (authenticate st now username password mfa_code ip ua).1.success = false ∧
    (authenticate st now username password mfa_code ip ua).1.token = none ∧
    (authenticate st now username password mfa_code ip ua).1.errors =
      ["Too many login attempts. Try again in " ++
        toString ((st.rate_limiter.is_rate_limited now username).1.2.getD 0) ++ " seconds"] ∧
    ((authenticate st now username password mfa_code ip ua).2.audit_log.head?.map
      AuditEntry.status) = some ("rate_limited") := by
  unfold authenticate
  simp [h, logAudit]

/-- Witness for C5: with five recent failures on record, `bob` is refused
at second 10 even though `Secur3!pass` is his correct password. -/
theorem c5_rate_limited_never_issues_token_witness :
    (authenticate stBlocked 10 ("bob") "Secur3!pass" none none none).1.success = false ∧
    (authenticate stBlocked 10 ("bob") "Secur3!pass" none none none).1.token = none ∧
    (authenticate stBlocked 10 ("bob") "Secur3!pass" none none none).1.errors =
      ["Too many login attempts. Try again in " ++
        toString ((stBlocked.rate_limiter.is_rate_limited 10 ("bob")).1.2.getD 0) ++ " seconds"] ∧
    ((authenticate stBlocked 10 ("bob") "Secur3!pass" none none none).2.audit_log.head?.map
      AuditEntry.status) = some ("rate_limited") :=
  c5_rate_limited_never_issues_token stBlocked 10 ("bob") "Secur3!pass" none none none (by decide)

/-- Claim C2: an unknown username and an existing username with a wrong
password produce the same externally visible error message
'Invalid username or password', while the audit rows recorded internally
carry the distinct reason codes `invalid_credentials` and
`invalid_password`. -/
theorem c2_uniform_invalid_credentials (st : AuthState) (now : Int) (u p v q : String)
    (user : User)
    (hu : get_user_by_username st u = none)
    (hv : get_user_by_username st v = some user)
    (hact : user.is_active = true)
    (hpw : bcryptCheck q user.password_hash = false)
    (hru : (st.rate_limiter.is_rate_limited now u).1.1 = false)
    (hrv : (st.rate_limiter.is_rate_limited now v).1.1 = false) :
    (authenticate st now u p none none none).1.errors = ["Invalid username or password"] ∧
    (authenticate st now v q none none none).1.errors = ["Invalid username or password"] ∧
    ((authenticate st now u p none none none).2.audit_log.head?.map AuditEntry.status) =
      some ("invalid_credentials") ∧
    ((authenticate st now v q none none none).2.audit_log.head?.map AuditEntry.status) =
      some ("invalid_password") := by
  unfold authenticate
  simp only [get_user_by_username] at hu hv
  simp [hru, hrv, hu, hv, hact, hpw, logAudit, get_user_by_username, updateUser]

/-- Witness for C2: unknown `alice` and `bob` with a wrong password get the
identical external message, with differing audit reason codes. -/
theorem c2_uniform_invalid_credentials_witness :
    (authenticate stBase 0 ("alice") "x" none none none).1.errors =
      ["Invalid username or password"] ∧
    (authenticate stBase 0 ("bob") "wrong" none none none).1.errors =
      ["Invalid username or password"] ∧
    ((authenticate stBase 0 ("alice") "x" none none none).2.audit_log.head?.map
      AuditEntry.status) = some ("invalid_credentials") ∧
    ((authenticate stBase 0 ("bob") "wrong" none none none).2.audit_log.head?.map
      AuditEntry.status) = some ("invalid_password") :=
  c2_uniform_invalid_credentials stBase 0 ("alice") "x" "bob" "wrong" userBob
    (by decide) (by decide) (by decide) (by decide) (by decide) (by decide)

/-- Claim C7: for an MFA-enabled user with the correct password, calling
`authenticate` without an MFA code terminates softly with
`requires_mfa`/`user_id` and no token, records no rate-limiter attempt
(and writes no audit row); supplying a code that fails TOTP verification
records a rate-limiter failure and terminates with the invalid-MFA error,
audited as `invalid_mfa`. -/
theorem c7_mfa_required_and_invalid (st : AuthState) (now : Int)
    (username password : String) (ip ua : Option String) (c : String) (user : User)
    (hv : get_user_by_username st username = some user)
    (hact : user.is_active = true)
    (hpw : bcryptCheck password user.password_hash = true)
    (hmfa : user.mfa_enabled = true)
    (hrl : (st.rate_limiter.is_rate_limited now username).1.1 = false)
    (hbad : verify_mfa_code user.mfa_secret c now = false) :
    (authenticate st now username password none ip ua).1.success = false ∧
    (authenticate st now username password none ip ua).1.token = none ∧
    (authenticate st now username password none ip ua).1.data =
      some (AuthData.mfaRequired user.id) ∧
    (authenticate st now username password none ip ua).2.rate_limiter.attempts.get username =
      (st.rate_limiter.attempts.get username).filter
        (fun t => decide (now - st.rate_limiter.window_seconds < t)) ∧
    (authenticate st now username password none ip ua).2.audit_log = st.audit_log ∧
    (authenticate st now username password (some c) ip ua).1.success = false ∧
    (authenticate st now username password (some c) ip ua).1.errors = ["Invalid MFA code"] ∧
    (authenticate st now username password (some c) ip ua).2.rate_limiter.attempts.get username =
      (st.rate_limiter.attempts.get username).filter
        (fun t => decide (now - st.rate_limiter.window_seconds < t)) ++ [now] ∧
    ((authenticate st now username password (some c) ip ua).2.audit_log.head?.map
      AuditEntry.status) = some ("invalid_mfa") := by
  unfold authenticate
  simp only [get_user_by_username] at hv
  simp [hv, hact, hpw, hmfa, hrl, hbad, logAudit, get_user_by_username,
    RateLimiter.is_rate_limited_attempts, RateLimiter.record_attempt_get]

/-- Witness for C7: `mia` (MFA enabled) with the correct password and no
code gets the soft `requires_mfa` outcome; with the wrong code `bad`, the
invalid-MFA failure and a recorded limiter attempt. -/
theorem c7_mfa_required_and_invalid_witness :
    (authenticate stBase 100 ("mia") "Secur3!pass" none none none).1.success = false ∧
    (authenticate stBase 100 ("mia") "Secur3!pass" none none none).1.token = none ∧
    (authenticate stBase 100 ("mia") "Secur3!pass" none none none).1.data =
      some (AuthData.mfaRequired userMia.id) ∧
    (authenticate stBase 100 ("mia") "Secur3!pass" none none none).2.rate_limiter.attempts.get
      ("mia") = (stBase.rate_limiter.attempts.get ("mia")).filter
        (fun t => decide (100 - stBase.rate_limiter.window_seconds < t)) ∧
    (authenticate stBase 100 ("mia") "Secur3!pass" none none none).2.audit_log =
      stBase.audit_log ∧
    (authenticate stBase 100 ("mia") "Secur3!pass" (some ("bad")) none none).1.success = false ∧
    (authenticate stBase 100 ("mia") "Secur3!pass" (some ("bad")) none none).1.errors =
      ["Invalid MFA code"] ∧
    (authenticate stBase 100 ("mia") "Secur3!pass" (some ("bad")) none none).2.rate_limiter.attempts.get
      ("mia") = (stBase.rate_limiter.attempts.get ("mia")).filter
        (fun t => decide (100 - stBase.rate_limiter.window_seconds < t)) ++ [100] ∧
    ((authenticate stBase 100 ("mia") "Secur3!pass" (some ("bad")) none none).2.audit_log.head?.map
      AuditEntry.status) = some ("invalid_mfa") :=
  c7_mfa_required_and_invalid stBase 100 ("mia") "Secur3!pass" none none ("bad") userMia
    (by decide) (by decide) (by decide) (by decide) (by decide) (by decide)

/-- A by-id `UPDATE` that preserves usernames commutes with lookup by
username. -/
theorem get_user_by_username_updateUser (st : AuthState) (uid : Nat) (f : User → User)
    (hf : ∀ u, (f u).username = u.username) (username : String) :
    get_user_by_username (updateUser st uid f) username =
      (get_user_by_username st username).map (fun u => if u.id = uid then f u else u) := by
  unfold get_user_by_username updateUser
  dsimp only
  rw [List.find?_map]
  have hp : ((fun u : User => decide (u.username = username)) ∘
      fun u => if u.id = uid then f u else u) =
      (fun u : User => decide (u.username = username)) := by
    funext u
    by_cases h : u.id = uid <;> simp [h, hf]
  rw [hp]

/-- The ISSUE step reports success. -/
theorem issueSuccess_success (st : AuthState) (now : Int) (username : String) (user : User)
    (ip ua : Option String) :
    (issueSuccess st now username user ip ua).1.success = true := rfl

/-- The ISSUE step's only limiter effect is `reset(username)`. -/
theorem issueSuccess_rate_limiter (st : AuthState) (now : Int) (username : String)
    (user : User) (ip ua : Option String) :
    (issueSuccess st now username user ip ua).2.rate_limiter =
      st.rate_limiter.reset username := rfl

/-- Username lookup depends only on the users table. -/
theorem get_user_by_username_users_congr (st st' : AuthState) (h : st.users = st'.users)
    (u : String) : get_user_by_username st u = get_user_by_username st' u := by
  unfold get_user_by_username
  rw [h]

/-- Effect of the ISSUE step on the users table, seen through username
lookup: the logged-in user's failure counter is cleared and `last_login`
set. -/
theorem issueSuccess_lookup (st : AuthState) (now : Int) (username : String) (user : User)
    (ip ua : Option String) (uname : String) :
    get_user_by_username (issueSuccess st now username user ip ua).2 uname =
      ((get_user_by_username st uname).map
        (fun u => if u.id = user.id then
          { u with failed_login_attempts := 0, last_failed_login := none } else u)).map
        (fun u => if u.id = user.id then { u with last_login := some now } else u) := by
  have h0 : (issueSuccess st now username user ip ua).2.users =
      (updateUser (updateUser { st with rate_limiter := st.rate_limiter.reset username }
        user.id (fun u => { u with failed_login_attempts := 0, last_failed_login := none }))
        user.id (fun u => { u with last_login := some now })).users := rfl
  rw [get_user_by_username_users_congr _ _ h0]
  rw [get_user_by_username_updateUser _ _ _ (fun u => by by_cases h : u.id = user.id <;> simp)]
  rw [get_user_by_username_updateUser _ _ _ (fun u => by by_cases h : u.id = user.id <;> simp)]
  rfl

/-- Claim C6: `authenticate` clears the rate-limiter history for the
username and resets the user's `failed_login_attempts` to 0 on, and only
on, a fully successful login reaching ISSUE; on every failing terminal
outcome the limiter entry is only lazily pruned (possibly extended by the
new failure) and the user's counter is never reset — it stays or is
incremented by one. -/
theorem c6_reset_exactly_on_success (st : AuthState) (now : Int) (username password : String)
    (mfa_code : Option String) (ip ua : Option String) :
    ((authenticate st now username password mfa_code ip ua).1.success = true →
      (authenticate st now username password mfa_code ip ua).2.rate_limiter.attempts.get
        username = [] ∧
      ∀ u', get_user_by_username (authenticate st now username password mfa_code ip ua).2
          username = some u' → u'.failed_login_attempts = 0) ∧
    ((authenticate st now username password mfa_code ip ua).1.success = false →
      ((authenticate st now username password mfa_code ip ua).2.rate_limiter.attempts.get
          username =
        (st.rate_limiter.attempts.get username).filter
          (fun t => decide (now - st.rate_limiter.window_seconds < t)) ∨
       (authenticate st now username password mfa_code ip ua).2.rate_limiter.attempts.get
          username =
        (st.rate_limiter.attempts.get username).filter
          (fun t => decide (now - st.rate_limiter.window_seconds < t)) ++ [now]) ∧
      ∀ u u', get_user_by_username st username = some u →
        get_user_by_username (authenticate st now username password mfa_code ip ua).2
          username = some u' →
        (u'.failed_login_attempts = u.failed_login_attempts ∨
         u'.failed_login_attempts = u.failed_login_attempts + 1)) := by
  by_cases hrl : (st.rate_limiter.is_rate_limited now username).1.1 = true
  · -- RATE_CHECK fails: terminal rate-limited outcome
    have hres : authenticate st now username password mfa_code ip ua =
        ({ success := false, token := none, data := none,
           errors := ["Too many login attempts. Try again in " ++
             toString ((st.rate_limiter.is_rate_limited now username).1.2.getD 0) ++
             " seconds"] },
         logAudit { st with rate_limiter := (st.rate_limiter.is_rate_limited now username).2 }
           none (some username) "login_failed" none ip ua ("rate_limited")) := by
      unfold authenticate
      simp [hrl]
    constructor
    · intro h
      rw [hres] at h
      exact absurd h (by simp)
    · intro _
      constructor
      · rw [hres]
        exact Or.inl (RateLimiter.is_rate_limited_attempts st.rate_limiter now username)
      · intro u u' h1 h2
        rw [hres] at h2
        have h2' : get_user_by_username st username = some u' := h2
        rw [h1] at h2'
        injection h2' with he
        exact Or.inl (by rw [← he])
  · have hrl' : (st.rate_limiter.is_rate_limited now username).1.1 = false := by
      cases hx : (st.rate_limiter.is_rate_limited now username).1.1 with
      | false => rfl
      | true => exact absurd hx hrl
    cases hvu : get_user_by_username st username with
    | none =>
        have hvu' : List.find? (fun u => decide (u.username = username)) st.users = none := hvu
        have hres : authenticate st now username password mfa_code ip ua =
            ({ success := false, token := none, data := none,
               errors := ["Invalid username or password"] },
             logAudit { st with rate_limiter :=
                 ((st.rate_limiter.is_rate_limited now username).2.record_attempt now username) }
               none (some username) "login_failed" none ip ua ("invalid_credentials")) := by
          unfold authenticate
          simp [hrl', hvu', get_user_by_username]
        constructor
        · intro h
          rw [hres] at h
          exact absurd h (by simp)
        · intro _
          refine ⟨Or.inr ?_, ?_⟩
          · rw [hres]
            show ((st.rate_limiter.is_rate_limited now username).2.record_attempt
              now username).attempts.get username = _
            rw [RateLimiter.record_attempt_get, RateLimiter.is_rate_limited_attempts]
          · intro u u' h1 h2
            exact Option.noConfusion h1
    | some user =>
        have hvu' : List.find? (fun u => decide (u.username = username)) st.users =
            some user := hvu
        by_cases hact : user.is_active = false
        · -- ACTIVE_CHECK fails
          have hres : authenticate st now username password mfa_code ip ua =
              ({ success := false, token := none, data := none,
                 errors := ["Account is disabled"] },
               logAudit { st with rate_limiter :=
                   (st.rate_limiter.is_rate_limited now username).2 }
                 (some user.id) (some username) "login_failed" none ip ua
                 ("account_disabled")) := by
            unfold authenticate
            simp [hrl', hvu', hact, get_user_by_username]
          constructor
          · intro h
            rw [hres] at h
            exact absurd h (by simp)
          · intro _
            constructor
            · rw [hres]
              exact Or.inl (RateLimiter.is_rate_limited_attempts st.rate_limiter now username)
            · intro u u' h1 h2
              rw [hres] at h2
              have h2' : get_user_by_username st username = some u' := h2
              rw [hvu] at h2'
              injection h2' with he2
              injection h1 with he1
              exact Or.inl (by rw [← he2, ← he1])
        · by_cases hpw : bcryptCheck password user.password_hash = false
          · -- PASSWORD_CHECK fails
            have hres : authenticate st now username password mfa_code ip ua =
                ({ success := false, token := none, data := none,
                   errors := ["Invalid username or password"] },
                 logAudit (updateUser { st with rate_limiter :=
                     ((st.rate_limiter.is_rate_limited now username).2.record_attempt
                       now username) }
                   user.id (fun u => { u with
                     failed_login_attempts := u.failed_login_attempts + 1,
                     last_failed_login := some now }))
                   (some user.id) (some username) "login_failed" none ip ua
                   ("invalid_password")) := by
              unfold authenticate
              simp [hrl', hvu', hact, hpw, get_user_by_username]
            constructor
            · intro h
              rw [hres] at h
              exact absurd h (by simp)
            · intro _
              refine ⟨Or.inr ?_, ?_⟩
              · rw [hres]
                show ((st.rate_limiter.is_rate_limited now username).2.record_attempt
                  now username).attempts.get username = _
                rw [RateLimiter.record_attempt_get, RateLimiter.is_rate_limited_attempts]
              · intro u u' h1 h2
                rw [hres] at h2
                have h2' : get_user_by_username (updateUser { st with rate_limiter :=
                    ((st.rate_limiter.is_rate_limited now username).2.record_attempt
                      now username) }
                    user.id (fun u => { u with
                      failed_login_attempts := u.failed_login_attempts + 1,
                      last_failed_login := some now })) username = some u' := h2
                rw [get_user_by_username_updateUser _ user.id
                  (fun u => { u with
                    failed_login_attempts := u.failed_login_attempts + 1,
                    last_failed_login := some now }) (fun u => rfl)] at h2'
                have h2'' : (get_user_by_username st username).map
                    (fun u => if u.id = user.id then { u with
                      failed_login_attempts := u.failed_login_attempts + 1,
                      last_failed_login := some now } else u) = some u' := h2'
                rw [hvu] at h2''
                simp at h2''
                injection h1 with he1
                rw [← h2'', ← he1]
                exact Or.inr rfl
          · have hpw' : bcryptCheck password user.password_hash = true := by
              cases hx : bcryptCheck password user.password_hash with
              | true => rfl
              | false => exact absurd hx hpw
            by_cases hmfa : user.mfa_enabled = true
            · cases mfa_code with
              | none =>
                  -- MFA required: soft failure, state only pruned
                  have hres : authenticate st now username password none ip ua =
                      ({ success := false, token := none,
                         data := some (.mfaRequired user.id),
                         errors := ["MFA code required"] },
                       { st with rate_limiter :=
                           (st.rate_limiter.is_rate_limited now username).2 }) := by
                    unfold authenticate
                    simp [hrl', hvu', hact, hpw', hmfa, get_user_by_username]
                  constructor
                  · intro h
                    rw [hres] at h
                    exact absurd h (by simp)
                  · intro _
                    constructor
                    · rw [hres]
                      exact Or.inl
                        (RateLimiter.is_rate_limited_attempts st.rate_limiter now username)
                    · intro u u' h1 h2
                      rw [hres] at h2
                      have h2' : get_user_by_username st username = some u' := h2
                      rw [hvu] at h2'
                      injection h2' with he2
                      injection h1 with he1
                      exact Or.inl (by rw [← he2, ← he1])
              | some c =>
                  by_cases hbad : verify_mfa_code user.mfa_secret c now = false
                  · -- MFA_CHECK fails
                    have hres : authenticate st now username password (some c) ip ua =
                        ({ success := false, token := none, data := none,
                           errors := ["Invalid MFA code"] },
                         logAudit { st with rate_limiter :=
                             ((st.rate_limiter.is_rate_limited now username).2.record_attempt
                               now username) }
                           (some user.id) (some username) "login_failed" none ip ua
                           ("invalid_mfa")) := by
                      unfold authenticate
                      simp [hrl', hvu', hact, hpw', hmfa, hbad, get_user_by_username]
                    constructor
                    · intro h
                      rw [hres] at h
                      exact absurd h (by simp)
                    · intro _
                      refine ⟨Or.inr ?_, ?_⟩
                      · rw [hres]
                        show ((st.rate_limiter.is_rate_limited now username).2.record_attempt
                          now username).attempts.get username = _
                        rw [RateLimiter.record_attempt_get,
                          RateLimiter.is_rate_limited_attempts]
                      · intro u u' h1 h2
                        rw [hres] at h2
                        have h2' : get_user_by_username st username = some u' := h2
                        rw [hvu] at h2'
                        injection h2' with he2
                        injection h1 with he1
                        exact Or.inl (by rw [← he2, ← he1])
                  · -- MFA passes: ISSUE
                    have hbad' : verify_mfa_code user.mfa_secret c now = true := by
                      cases hx : verify_mfa_code user.mfa_secret c now with
                      | true => rfl
                      | false => exact absurd hx hbad
                    have hres : authenticate st now username password (some c) ip ua =
                        issueSuccess { st with rate_limiter :=
                            (st.rate_limiter.is_rate_limited now username).2 }
                          now username user ip ua := by
                      unfold authenticate
                      simp [hrl', hvu', hact, hpw', hmfa, hbad', get_user_by_username]
                    constructor
                    · intro _
                      constructor
                      · rw [hres, issueSuccess_rate_limiter]
                        exact RateLimiter.reset_get _ _
                      · intro u' h2
                        rw [hres, issueSuccess_lookup] at h2
                        have h2' : ((get_user_by_username st username).map
                            (fun u => if u.id = user.id then { u with
                              failed_login_attempts := 0,
                              last_failed_login := none } else u)).map
                            (fun u => if u.id = user.id then
                              { u with last_login := some now } else u) = some u' := h2
                        rw [hvu] at h2'
                        simp at h2'
                        rw [← h2']
                    · intro h
                      rw [hres, issueSuccess_success] at h
                      exact absurd h (by simp)
            · -- no MFA: ISSUE
              have hres : authenticate st now username password mfa_code ip ua =
                  issueSuccess { st with rate_limiter :=
                      (st.rate_limiter.is_rate_limited now username).2 }
                    now username user ip ua := by
                unfold authenticate
                simp [hrl', hvu', hact, hpw', hmfa, get_user_by_username]
              constructor
              · intro _
                constructor
                · rw [hres, issueSuccess_rate_limiter]
                  exact RateLimiter.reset_get _ _
                · intro u' h2
                  rw [hres, issueSuccess_lookup] at h2
                  have h2' : ((get_user_by_username st username).map
                      (fun u => if u.id = user.id then { u with
                        failed_login_attempts := 0,
                        last_failed_login := none } else u)).map
                      (fun u => if u.id = user.id then
                        { u with last_login := some now } else u) = some u' := h2
                  rw [hvu] at h2'
                  simp at h2'
                  rw [← h2']
              · intro h
                rw [hres, issueSuccess_success] at h
                exact absurd h (by simp)

/-- Witness for C6: `bob` (two failed logins on record) logs in with the
right password; the limiter entry is cleared and his counter drops to 0. -/
theorem c6_reset_exactly_on_success_witness :
    (authenticate stBase 100 ("bob") "Secur3!pass" none none none).2.rate_limiter.attempts.get
      ("bob") = [] ∧
    ∀ u', get_user_by_username
        (authenticate stBase 100 ("bob") "Secur3!pass" none none none).2 ("bob") = some u' →
      u'.failed_login_attempts = 0 :=
  (c6_reset_exactly_on_success stBase 100 ("bob") "Secur3!pass" none none none).1 (by decide)
